import Mathlib

/-!
Verification of the streaming proxy in `server/app.py`.

The file embeds, as executable Lean definitions, the parts of the program
that the claims are about:

* the NDJSON streaming endpoint `chat_stream` (request validation, provider
  routing, and the two backend adapter generators `ollama_stream` and
  `gemini_cli_stream`);
* the non-streaming endpoint `chat` insofar as its input limits are concerned.

External collaborators (the HTTP inference service, the subprocess) are
abstracted by explicit "outcome" data: the list of lines they deliver and the
way delivery ends (success, transport failure, launch failure, read failure,
early abandonment by the consumer).  Python control flow (generator `yield`,
`try/except`, `try/finally`, `break`/`continue`) is translated into explicit
recursion over those outcomes.
-/

namespace LocalLLM

/-- Leaf JSON values (strings, numbers, booleans, null).  The primary
wire contract of the backend delivers per-line objects of at most two levels
(`{response, done}` or `{message: {role, content}, done}`), so one level of
nesting suffices for the fragment model. -/
inductive JLeaf where
  | jnull
  | jbool (b : Bool)
  | jstr (s : String)
  | jnum (n : Int)
deriving DecidableEq, Repr

/-- A JSON value occurring as a field of a parsed fragment: a leaf or a
one-level object (such as the `message` object). -/
inductive JVal where
  | jnull
  | jbool (b : Bool)
  | jstr (s : String)
  | jnum (n : Int)
  | jdict (fields : List (String × JLeaf))
deriving DecidableEq, Repr

/-- Python truthiness of a leaf value (`if content:` etc.): `None` and the
empty string are falsy, a number is falsy iff zero. -/
def JLeaf.truthy : JLeaf → Bool
  | .jnull => false
  | .jbool b => b
  | .jstr s => !s.isEmpty
  | .jnum n => n != 0

/-- Python truthiness of a fragment field value; a dict is truthy iff
non-empty. -/
def JVal.truthy : JVal → Bool
  | .jnull => false
  | .jbool b => b
  | .jstr s => !s.isEmpty
  | .jnum n => n != 0
  | .jdict fs => !fs.isEmpty

/-- `isinstance(v, dict)` on a fragment field value. -/
def JVal.isDict : JVal → Bool
  | .jdict _ => true
  | _ => false

/-- Widen a leaf back to a field value (used when a leaf is emitted). -/
def JLeaf.toVal : JLeaf → JVal
  | .jnull => .jnull
  | .jbool b => .jbool b
  | .jstr s => .jstr s
  | .jnum n => .jnum n

/-- A parsed JSON object fragment, as produced by `json.loads` on one line of
the response of the primary backend: a key/value list.  `json.loads` keeps the
last occurrence of a duplicated key, hence the reversed lookups below. -/
abbrev Fragment := List (String × JVal)

/-- Python `k in j` for a parsed object `j`. -/
def hasKey (j : Fragment) (k : String) : Bool := j.any (fun kv => kv.1 == k)

/-- Python `j.get(k)` for a parsed object `j`: the value stored under `k`,
or `None` (modelled `jnull`) when absent. -/
def pyGet (j : Fragment) (k : String) : JVal := (j.reverse.lookup k).getD JVal.jnull

/-- Python `m.get(k)` for a nested object value `m` (`j["message"]`); only
reached in the code after `isinstance(m, dict)` holds. -/
def JVal.getLeaf : JVal → String → JLeaf
  | .jdict fs, k => (fs.reverse.lookup k).getD JLeaf.jnull
  | _, _ => JLeaf.jnull

/-- One canonical output record of the NDJSON stream, before serialisation by
`_ndjson`: either `{"response": v}` or `{"error": s}`. -/
inductive OutRec where
  | response (v : JVal)
  | error (s : String)
deriving DecidableEq, Repr

/-- Whether a record is an `{"error": ...}` record. -/
def isErr : OutRec → Bool
  | .error _ => true
  | .response _ => false

/-- The records yielded for one parsed fragment by the body of the
`for raw in r.iter_lines(...)` loop of `ollama_stream` (`app.py` lines
130-137), before the `done` check:
`if "response" in j and j.get("response"): yield {"response": j["response"]}`
`elif "message" in j and isinstance(j.get("message"), dict):`
`    content = (j["message"].get("content") or "")`
`    if content: yield {"response": content}`. -/
def fragEmits (j : Fragment) : List OutRec :=
  if hasKey j "response" && (pyGet j "response").truthy then
    [OutRec.response (pyGet j "response")]
  else if hasKey j "message" && (pyGet j "message").isDict then
    let content := (pyGet j "message").getLeaf "content"
    let content := if content.truthy then content else JLeaf.jstr ""
    if content.truthy then [OutRec.response content.toVal] else []
  else []

/-- One line received from the streaming HTTP response of the primary backend, as
the loop in `ollama_stream` classifies it: a falsy (empty) line skipped by
`if not raw: continue`, a line on which `json.loads` raises (skipped by the
inner `try/except: continue`), or a line parsing to a JSON object. -/
inductive OllamaLine where
  | blank
  | noise (raw : String)
  | frag (j : Fragment)
deriving DecidableEq, Repr

/-- The `for raw in r.iter_lines(decode_unicode=True)` loop of
`ollama_stream` (`app.py` lines 123-139): skip blank and unparseable lines,
emit `fragEmits` per fragment, and `break` (reading no further lines) when
the `done` field of the fragment is truthy. -/
def ollamaLoop : List OllamaLine → List OutRec
  | [] => []
  | OllamaLine.blank :: rest => ollamaLoop rest
  | OllamaLine.noise _ :: rest => ollamaLoop rest
  | OllamaLine.frag j :: rest =>
      if (pyGet j "done").truthy then fragEmits j
      else fragEmits j ++ ollamaLoop rest

/-- Whether the loop `break`s (a fragment with truthy `done` is reached)
before the line list is exhausted. -/
def loopBreaks : List OllamaLine → Bool
  | [] => false
  | OllamaLine.frag j :: rest => (pyGet j "done").truthy || loopBreaks rest
  | _ :: rest => loopBreaks rest

/-- How the streaming HTTP exchange with the primary backend goes, as far as
`ollama_stream` can observe it: either the connection delivers a list of
lines and closes normally, or a transport failure (connection error, timeout,
`raise_for_status`, mid-stream error) interrupts the exchange after `lines`
were delivered (in particular `lines = []` when the connect itself fails). -/
inductive HttpOutcome where
  | ok (lines : List OllamaLine)
  | fail (lines : List OllamaLine) (msg : String)
deriving DecidableEq, Repr

/-- The full record stream produced by the generator `ollama_stream`
(`app.py` lines 104-141).  The whole body sits in
`try: ... except Exception as e: yield {"error": f"ollama stream failed: {e}"}`,
so a transport failure appends a single error record — unless the loop
already `break`ed on `done`, in which case the `with` block was exited before
the failure could be observed. -/
def ollamaStream : HttpOutcome → List OutRec
  | .ok ls => ollamaLoop ls
  | .fail ls msg =>
      if loopBreaks ls then ollamaLoop ls
      else ollamaLoop ls ++ [OutRec.error ("ollama stream failed: " ++ msg)]

/-- A `{"response": string, "done": bool}` fragment from `/api/generate`. -/
def genFrag (s : String) (d : Bool) : Fragment :=
  [("response", JVal.jstr s), ("done", JVal.jbool d)]

/-- A `{"message": {"role": r, "content": c}, "done": bool}` fragment from
`/api/chat`. -/
def chatFrag (r c : String) (d : Bool) : Fragment :=
  [("message", JVal.jdict [("role", JLeaf.jstr r), ("content", JLeaf.jstr c)]),
   ("done", JVal.jbool d)]

/-- Python `line.rstrip("\n")`: remove every trailing newline character. -/
def stripNl (s : String) : String :=
  String.mk ((s.data.reverse.dropWhile (fun c => c == '\n')).reverse)

/-- The `for line in proc.stdout` loop of `gemini_cli_stream` (`app.py`
lines 155-159): strip the trailing newline, skip the line if the result is
falsy (empty), otherwise yield `{"response": line}`. -/
def geminiEmit : List String → List OutRec
  | [] => []
  | l :: ls =>
      let l2 := stripNl l
      if l2.isEmpty then geminiEmit ls
      else OutRec.response (JVal.jstr l2) :: geminiEmit ls

/-- How the consumption of the stdout of a successfully launched subprocess ends:
the process closes stdout and the loop finishes (`natural`); iteration over
stdout raises after the given lines were read (`readError`) — the code has no
`except` around the loop, so such an exception propagates out of the
generator; or the consumer abandons the generator after taking `k` records
(caller disconnect / early stop), which closes the generator (`abandoned`). -/
inductive GemEnd where
  | natural
  | readError (msg : String)
  | abandoned (k : Nat)
deriving DecidableEq, Repr

/-- One execution of `gemini_cli_stream`: either `subprocess.Popen` raises
(`launchFail`, `app.py` lines 148-151) or the process launches and its stdout
delivers `lines` before ending in the given way. -/
inductive GemExec where
  | launchFail (msg : String)
  | launched (lines : List String) (ending : GemEnd)
deriving DecidableEq, Repr

/-- Observable result of running the `gemini_cli_stream` generator to its
end: the records it yielded, whether `proc.terminate()` was invoked, and
whether an exception propagated out of the generator. -/
structure GemRun where
  records : List OutRec
  terminated : Bool
  raised : Bool
deriving DecidableEq, Repr

/-- The `finally` clause of `gemini_cli_stream` (`app.py` lines 160-164):
`try: proc.terminate() / except Exception: pass`.  `proc.terminate()` is
invoked unconditionally; `termFails` says whether that call itself raises
(e.g. the process already exited), and the bare `except` swallows it either
way, so the clause always completes without raising.  Result: (terminate was
invoked, the clause raised). -/
def finallyClause (_termFails : Bool) : Bool × Bool := (true, false)

/-- The full behaviour of one execution of `gemini_cli_stream` (`app.py`
lines 143-164).  On launch failure the generator yields one error record and
returns before the `try/finally` is entered, so no terminate call happens.
After a successful launch the read loop runs inside `try: ... finally:`, and
Python runs the `finally` clause on every exit from the `try` block — normal
completion, an exception from the iteration, and generator close on early
abandonment alike. -/
def geminiRun : GemExec → Bool → GemRun
  | .launchFail msg, _ =>
      ⟨[OutRec.error ("failed to start gemini cli: " ++ msg)], false, false⟩
  | .launched lines ending, termFails =>
      let fc := finallyClause termFails
      match ending with
      | .natural => ⟨geminiEmit lines, fc.1, fc.2⟩
      | .readError _ => ⟨geminiEmit lines, fc.1, true⟩
      | .abandoned k => ⟨(geminiEmit lines).take k, fc.1, fc.2⟩

/-- The two backends `chat_stream` can route to. -/
inductive Backend where
  | ollama
  | gemini
deriving DecidableEq, Repr

/-- Python `s.strip()`: remove leading and trailing whitespace. -/
def pyStrip (s : String) : String :=
  String.mk
    (((s.data.dropWhile Char.isWhitespace).reverse.dropWhile
        Char.isWhitespace).reverse)

/-- Python `s.lower()`: lower-case every character (ASCII case suffices for
the provider names compared here). -/
def pyLower (s : String) : String := String.mk (s.data.map Char.toLower)

/-- `message = (data.get("message") or "").strip()` (`app.py` line 95):
`None` or a missing key becomes the empty string, then surrounding
whitespace is stripped. -/
def stripMsg (raw : Option String) : String := pyStrip (raw.getD "")

/-- `provider = (data.get("provider") or "ollama").strip().lower()`
(`app.py` line 97): a missing key or empty string defaults to `"ollama"`,
then the value is stripped and lower-cased. -/
def normProvider (p : Option String) : String :=
  let raw := match p with
    | none => "ollama"
    | some s => if s.isEmpty then "ollama" else s
  pyLower (pyStrip raw)

/-- `generator = ollama_stream if provider == "ollama" else gemini_cli_stream`
(`app.py` line 166). -/
def selectBackend (p : Option String) : Backend :=
  if normProvider p = "ollama" then Backend.ollama else Backend.gemini

/-- One `{role, content}` conversation turn. -/
structure Turn where
  role : String
  content : String
deriving DecidableEq, Repr

/-- The turn list that the inner `ollama_stream` of `chat_stream` sends to `/api/chat` when
`messages` is non-empty (`app.py` lines 106-110):
`chat_messages = list(messages)`; `if message: chat_messages.append({"role":
"user", "content": message})`.  No truncation is applied on this path. -/
def streamChatMessages (message : String) (messages : List Turn) : List Turn :=
  messages ++ (if message.isEmpty then [] else [⟨"user", message⟩])

/-- Python `s[:n]`: the first `n` characters of `s`. -/
def pySlice (s : String) (n : Nat) : String := String.mk (s.data.take n)

/-- The message limit of the non-streaming `chat` endpoint (`app.py` lines
59-60): `if message and len(message) > 8000: message = message[:8000]`. -/
def chatMessageLimited (message : String) : String :=
  if !message.isEmpty && message.length > 8000 then pySlice message 8000
  else message

/-- The history limit of the non-streaming `chat` endpoint (`app.py` lines
61-63): `if isinstance(messages, list) and len(messages) > 0: messages =
messages[-20:]` — keep only the last 20 turns at most. -/
def chatHistoryLimited (messages : List Turn) : List Turn :=
  if messages.length > 0 then messages.drop (messages.length - 20)
  else messages

/-- Abstraction of the behaviour of the environment for one request: what the
HTTP backend would deliver, what the subprocess would do, and whether a
terminate call on that subprocess would fail. -/
structure BackendWorld where
  http : HttpOutcome
  gem : GemExec
  termFails : Bool
deriving DecidableEq, Repr

/-- The `chat_stream` request handler (`app.py` lines 93-167): strip the
message, default the provider, reject with a 400 JSON error when both
`message` and `messages` are falsy (`if not message and not messages:`), and
otherwise stream the records of the selected backend generator. -/
def chatStream (rawMsg : Option String) (messages : List Turn)
    (provider : Option String) (w : BackendWorld) :
    Except (Nat × String) (List OutRec) :=
  let message := stripMsg rawMsg
  if message.isEmpty && messages.isEmpty then
    Except.error (400, "message is required")
  else
    Except.ok (match selectBackend provider with
      | Backend.ollama => ollamaStream w.http
      | Backend.gemini => (geminiRun w.gem w.termFails).records)

/-- The argv that `gemini_cli_stream` launches (`app.py` lines 144-146):
`args = [cmd, "stream", "-m", model, "-p", message]`.  The generator closes
over `message` only; the `messages` (history) list of the request, also in scope
in `chat_stream`, does not occur in the command (the unused `_messages`
parameter records that). -/
def geminiInvocation (cmd model : String) (rawMsg : Option String)
    (_messages : List Turn) : List String :=
  [cmd, "stream", "-m", model, "-p", stripMsg rawMsg]

/-! ## Helper lemmas -/

/-- A non-empty string literalised: `isEmpty` is `false`. -/
lemma isEmpty_false_of_ne {s : String} (h : s ≠ "") : s.isEmpty = false := by
  cases hb : s.isEmpty with
  | false => rfl
  | true => exact absurd ((String.isEmpty_iff s).mp hb) h

/-- `fragEmits` yields only `response` records. -/
lemma isErr_false_of_mem_fragEmits {j : Fragment} {r : OutRec}
    (hr : r ∈ fragEmits j) : isErr r = false := by
  simp only [fragEmits] at hr
  split at hr
  · simp at hr
    subst hr
    rfl
  · split at hr
    · split at hr
      · simp at hr
        subst hr
        rfl
      · have h0 : (JLeaf.jstr "").truthy = false := by decide
        simp [h0] at hr
    · simp at hr

/-- The line loop of `ollama_stream` yields only `response` records. -/
lemma isErr_false_of_mem_ollamaLoop {ls : List OllamaLine} {r : OutRec}
    (hr : r ∈ ollamaLoop ls) : isErr r = false := by
  induction ls with
  | nil => simp [ollamaLoop] at hr
  | cons l rest ih =>
    cases l with
    | blank => exact ih (by simpa [ollamaLoop] using hr)
    | noise raw => exact ih (by simpa [ollamaLoop] using hr)
    | frag j =>
      simp only [ollamaLoop] at hr
      split at hr
      · exact isErr_false_of_mem_fragEmits hr
      · rcases List.mem_append.mp hr with h | h
        · exact isErr_false_of_mem_fragEmits h
        · exact ih h

/-- The stdout loop of `gemini_cli_stream` yields only `response` records. -/
lemma isErr_false_of_mem_geminiEmit {ls : List String} {r : OutRec}
    (hr : r ∈ geminiEmit ls) : isErr r = false := by
  induction ls with
  | nil => simp [geminiEmit] at hr
  | cons l rest ih =>
    simp only [geminiEmit] at hr
    split at hr
    · exact ih hr
    · rcases List.mem_cons.mp hr with h | h
      · subst h
        rfl
      · exact ih h

/-- An error record, if present at all, is the last record of the stream. -/
def errorTerminal (rs : List OutRec) : Prop :=
  ∀ i, (h : i < rs.length) → isErr rs[i] = true → i + 1 = rs.length

/-- A stream without error records is vacuously error-terminal. -/
lemma errorTerminal_of_noErr {rs : List OutRec}
    (h : ∀ r ∈ rs, isErr r = false) : errorTerminal rs := by
  intro i hi hErr
  have hm := h rs[i] (List.getElem_mem hi)
  rw [hm] at hErr
  exact absurd hErr (by simp)

/-- Appending one error record to an error-free stream is error-terminal. -/
lemma errorTerminal_append_err {rs : List OutRec} (e : String)
    (h : ∀ r ∈ rs, isErr r = false) :
    errorTerminal (rs ++ [OutRec.error e]) := by
  intro i hi hErr
  rw [List.length_append, List.length_singleton] at hi ⊢
  rcases Nat.lt_or_ge i rs.length with hlt | hge
  · have heq : (rs ++ [OutRec.error e])[i] = rs[i] :=
      List.getElem_append_left hlt
    rw [heq] at hErr
    have hm := h rs[i] (List.getElem_mem hlt)
    rw [hm] at hErr
    exact absurd hErr (by simp)
  · omega

/-! ## Claims -/

/-- Claim C1: for the primary (HTTP) backend stream, each parsed fragment is
handled by a rule checked in order — non-empty `response` field emits
`{response: value}`; otherwise a `message` field that is a structured object
with non-empty `content` emits `{response: content}`; a truthy `done` flag
terminates the stream after the current fragment so no further lines are
processed; and the fragment sequence
`{"response":"a","done":false}, {"response":"b","done":true}` yields exactly
`{"response":"a"}, {"response":"b"}` regardless of what lines follow. -/
theorem ollama_extraction_rule :
    (∀ (s : String) (d : Bool), s ≠ "" →
        fragEmits (genFrag s d) = [OutRec.response (JVal.jstr s)]) ∧
    (∀ d : Bool, fragEmits (genFrag "" d) = []) ∧
    (∀ (r c : String) (d : Bool), c ≠ "" →
        fragEmits (chatFrag r c d) = [OutRec.response (JVal.jstr c)]) ∧
    (∀ (r : String) (d : Bool), fragEmits (chatFrag r "" d) = []) ∧
    (∀ (s c : String), s ≠ "" →
        fragEmits [("response", JVal.jstr s),
            ("message", JVal.jdict [("content", JLeaf.jstr c)])] =
          [OutRec.response (JVal.jstr s)]) ∧
    (∀ (j : Fragment) (rest : List OllamaLine),
        (pyGet j "done").truthy = true →
        ollamaLoop (OllamaLine.frag j :: rest) = fragEmits j) ∧
    (∀ rest : List OllamaLine,
        ollamaLoop (OllamaLine.frag (genFrag "a" false) ::
            OllamaLine.frag (genFrag "b" true) :: rest) =
          [OutRec.response (JVal.jstr "a"), OutRec.response (JVal.jstr "b")]) := by
  refine ⟨?_, ?_, ?_, ?_, ?_, ?_, ?_⟩
  · intro s d hs
    simp [fragEmits, genFrag, hasKey, pyGet, List.lookup, JVal.truthy,
      isEmpty_false_of_ne hs]
  · intro d
    simp [fragEmits, genFrag, hasKey, pyGet, List.lookup, JVal.truthy]
    decide
  · intro r c d hc
    simp [fragEmits, chatFrag, hasKey, pyGet, List.lookup, JVal.truthy,
      JVal.isDict, JVal.getLeaf, JLeaf.truthy, JLeaf.toVal,
      isEmpty_false_of_ne hc]
  · intro r d
    simp [fragEmits, chatFrag, hasKey, pyGet, List.lookup, JVal.truthy,
      JVal.isDict, JVal.getLeaf, JLeaf.truthy, JLeaf.toVal]
    decide
  · intro s c hs
    simp [fragEmits, hasKey, pyGet, List.lookup, JVal.truthy,
      isEmpty_false_of_ne hs]
  · intro j rest hdone
    simp [ollamaLoop, hdone]
  · intro rest
    simp [ollamaLoop, fragEmits, genFrag, hasKey, pyGet, List.lookup,
      JVal.truthy]
    decide

/-- Spot check for `ollama_extraction_rule` at a concrete fragment. -/
theorem ollama_extraction_rule_spot :
    fragEmits (genFrag "a" false) = [OutRec.response (JVal.jstr "a")] :=
  ollama_extraction_rule.1 "a" false (by decide)

/-- Claim C2: in every modelled execution of the stream of either adapter, an
emitted `{error}` record is the last record (nothing follows it), and a
launch failure of the executable of the secondary backend produces exactly one
`{error}` record and zero `{response}` records. -/
theorem error_record_is_terminal :
    (∀ o : HttpOutcome, errorTerminal (ollamaStream o)) ∧
    (∀ (e : GemExec) (tf : Bool), errorTerminal (geminiRun e tf).records) ∧
    (∀ (msg : String) (tf : Bool),
        (geminiRun (GemExec.launchFail msg) tf).records =
          [OutRec.error ("failed to start gemini cli: " ++ msg)]) := by
  refine ⟨?_, ?_, ?_⟩
  · intro o
    cases o with
    | ok ls =>
        exact errorTerminal_of_noErr fun r hr => isErr_false_of_mem_ollamaLoop hr
    | fail ls msg =>
        simp only [ollamaStream]
        split
        · exact errorTerminal_of_noErr fun r hr =>
            isErr_false_of_mem_ollamaLoop hr
        · exact errorTerminal_append_err _ fun r hr =>
            isErr_false_of_mem_ollamaLoop hr
  · intro e tf
    cases e with
    | launchFail msg =>
        intro i hi hErr
        simp [geminiRun] at hi ⊢
        omega
    | launched lines ending =>
        cases ending with
        | natural =>
            exact errorTerminal_of_noErr fun r hr =>
              isErr_false_of_mem_geminiEmit hr
        | readError m =>
            exact errorTerminal_of_noErr fun r hr =>
              isErr_false_of_mem_geminiEmit hr
        | abandoned k =>
            exact errorTerminal_of_noErr fun r hr =>
              isErr_false_of_mem_geminiEmit (List.take_subset _ _ hr)
  · intro msg tf
    rfl

/-- Spot check for `error_record_is_terminal` at a concrete launch
failure. -/
theorem error_record_is_terminal_spot :
    (geminiRun (GemExec.launchFail "no such file") false).records =
      [OutRec.error ("failed to start gemini cli: " ++ "no such file")] :=
  error_record_is_terminal.2.2 "no such file" false

/-- Claim C3 counterexample: the unrecognized provider value `"foo"` is
served by the secondary (process) backend, not by the primary backend as the
claim states. -/
theorem provider_unrecognized_routes_secondary :
    selectBackend (some "foo") = Backend.gemini ∧
    Backend.gemini ≠ Backend.ollama := by
  decide

/-- Claim C3 (amended): a request whose provider is absent, empty, or equal
to `"ollama"` after stripping and lower-casing is served by the primary
(HTTP) backend; every other provider value — unrecognized ones included — is
served by the secondary (process) backend. -/
theorem provider_routing :
    selectBackend none = Backend.ollama ∧
    (∀ s : String, selectBackend (some s) = Backend.ollama ↔
        (s = "" ∨ pyLower (pyStrip s) = "ollama")) ∧
    (∀ s : String, s ≠ "" → pyLower (pyStrip s) ≠ "ollama" →
        selectBackend (some s) = Backend.gemini) := by
  have hsel : ∀ p, selectBackend p = Backend.ollama ↔
      normProvider p = "ollama" := by
    intro p
    simp only [selectBackend]
    split
    · next h => simp [h]
    · next h => simp [h]
  have hnorm : ∀ s : String, s ≠ "" →
      normProvider (some s) = pyLower (pyStrip s) := by
    intro s hs
    simp [normProvider, isEmpty_false_of_ne hs]
  refine ⟨by decide, ?_, ?_⟩
  · intro s
    rw [hsel]
    by_cases hs : s = ""
    · subst hs
      have h0 : normProvider (some "") = "ollama" := by decide
      simp [h0]
    · rw [hnorm s hs]
      simp [hs]
  · intro s hs hno
    simp [selectBackend, hnorm s hs, hno]

/-- Spot check for `provider_routing`: `"gemini"` routes to the secondary
backend. -/
theorem provider_routing_spot :
    selectBackend (some "gemini") = Backend.gemini :=
  provider_routing.2.2 "gemini" (by decide) (by decide)

/-- A 25-entry conversation history. -/
def turns25 : List Turn := List.replicate 25 ⟨"user", "t"⟩

/-- Claim C4 counterexample: on the streaming path a 25-entry history is
passed to the backend in full — `chat_stream` applies no history (or
message-length) truncation, so the backend receives 25 prior turns, not at
most 20. -/
theorem stream_history_not_truncated :
    turns25.length = 25 ∧
    streamChatMessages "hi" turns25 = turns25 ++ [⟨"user", "hi"⟩] ∧
    20 < (streamChatMessages "hi" turns25).length := by
  refine ⟨by decide, by decide, by decide⟩

/-- Claim C4 (amended): the non-streaming `chat` endpoint truncates a
`message` longer than 8000 characters to its first 8000 characters and
retains only the 20 most recent `history` entries; the streaming endpoint
`chat_stream` applies no such truncation and forwards the entire message and
history to the backend adapter. -/
theorem input_limits_paths :
    (∀ m : String, (chatMessageLimited m).length ≤ 8000) ∧
    (∀ m : String, m.length ≤ 8000 → chatMessageLimited m = m) ∧
    (∀ ms : List Turn, (chatHistoryLimited ms).length ≤ 20) ∧
    (∀ ms : List Turn, chatHistoryLimited ms = ms.drop (ms.length - 20)) ∧
    (∀ ms : List Turn, 20 ≤ ms.length →
        (chatHistoryLimited ms).length = 20) ∧
    (∀ (m : String) (ms : List Turn),
        (streamChatMessages m ms).length =
          ms.length + (if m.isEmpty then 0 else 1)) := by
  refine ⟨?_, ?_, ?_, ?_, ?_, ?_⟩
  · intro m
    simp only [chatMessageLimited]
    split
    · next h =>
        simp [pySlice]
    · next h =>
        simp at h
        cases hm : m.isEmpty with
        | true =>
            have : m = "" := (String.isEmpty_iff m).mp hm
            subst this
            simp
        | false =>
            have := h hm
            omega
  · intro m hm
    simp only [chatMessageLimited]
    split
    · next h =>
        simp at h
        omega
    · rfl
  · intro ms
    simp only [chatHistoryLimited]
    split
    · next h =>
        simp only [List.length_drop]
        omega
    · next h => omega
  · intro ms
    simp only [chatHistoryLimited]
    split
    · rfl
    · next h =>
        have hlen : ms.length = 0 := by omega
        rw [List.length_eq_zero.mp hlen]
        rfl
  · intro ms hlen
    simp only [chatHistoryLimited]
    split
    · next h =>
        simp only [List.length_drop]
        omega
    · next h => omega
  · intro m ms
    simp only [streamChatMessages, List.length_append]
    split <;> simp

/-- Spot check for `input_limits_paths`: a 25-entry history is cut to 20 on
the non-streaming path. -/
theorem input_limits_paths_spot :
    (chatHistoryLimited turns25).length = 20 :=
  input_limits_paths.2.2.2.2.1 turns25 (by decide)

/-- Claim C5 counterexample: a failure of the process adapter after a
successful launch (an exception while iterating over the
stdout) propagates out of the generator instead of degrading to a terminal
`{error}` record — the stream ends with no error record and `raised`. -/
theorem gemini_read_failure_raises :
    (geminiRun (GemExec.launched ["x\n"] (GemEnd.readError "decode error"))
        false).raised = true ∧
    (geminiRun (GemExec.launched ["x\n"] (GemEnd.readError "decode error"))
        false).records = [OutRec.response (JVal.jstr "x")] ∧
    ((geminiRun (GemExec.launched ["x\n"] (GemEnd.readError "decode error"))
        false).records.all fun r => !isErr r) = true := by
  decide

/-- Claim C5 (amended): a transport-level failure inside the HTTP adapter
(connection refused, timeout, non-success status, mid-stream error) degrades
to a single terminal `{error}` record; for the process adapter only a launch
failure degrades to a terminal `{error}` record, while a failure after
launch propagates out of the stream without any error record (cleanup still
runs). -/
theorem stream_failure_policy :
    (∀ (ls : List OllamaLine) (msg : String), loopBreaks ls = false →
        ollamaStream (HttpOutcome.fail ls msg) =
          ollamaLoop ls ++ [OutRec.error ("ollama stream failed: " ++ msg)]) ∧
    (∀ (msg : String) (tf : Bool),
        geminiRun (GemExec.launchFail msg) tf =
          ⟨[OutRec.error ("failed to start gemini cli: " ++ msg)],
            false, false⟩) ∧
    (∀ (lines : List String) (msg : String) (tf : Bool),
        (geminiRun (GemExec.launched lines (GemEnd.readError msg))
            tf).raised = true ∧
        ∀ r ∈ (geminiRun (GemExec.launched lines (GemEnd.readError msg))
            tf).records, isErr r = false) := by
  refine ⟨?_, ?_, ?_⟩
  · intro ls msg h
    simp [ollamaStream, h]
  · intro msg tf
    rfl
  · intro lines msg tf
    exact ⟨rfl, fun r hr => isErr_false_of_mem_geminiEmit hr⟩

/-- Spot check for `stream_failure_policy` at a refused connection. -/
theorem stream_failure_policy_spot :
    ollamaStream (HttpOutcome.fail [] "connection refused") =
      ollamaLoop [] ++
        [OutRec.error ("ollama stream failed: " ++ "connection refused")] :=
  stream_failure_policy.1 [] "connection refused" (by decide)

/-- Claim C6: for every execution of the process-backend stream that
successfully launches the subprocess and for every way it ends — natural
exit, read failure, or early abandonment by the consumer — the terminate
signal is issued before the adapter finishes, a failure of the terminate
call itself changes nothing observable, and on natural end or abandonment
no exception surfaces. -/
theorem gemini_cleanup_guaranteed :
    ∀ (lines : List String) (ending : GemEnd) (tf : Bool),
      (geminiRun (GemExec.launched lines ending) tf).terminated = true ∧
      geminiRun (GemExec.launched lines ending) true =
        geminiRun (GemExec.launched lines ending) false ∧
      (geminiRun (GemExec.launched lines GemEnd.natural) tf).raised = false ∧
      (∀ k : Nat,
        (geminiRun (GemExec.launched lines (GemEnd.abandoned k))
          tf).raised = false) := by
  intro lines ending tf
  refine ⟨?_, ?_, rfl, fun k => rfl⟩
  · cases ending <;> rfl
  · cases ending <;> rfl

/-- Spot check for `gemini_cleanup_guaranteed` at a concrete abandoned
stream. -/
theorem gemini_cleanup_guaranteed_spot :
    (geminiRun (GemExec.launched ["a\n"] (GemEnd.abandoned 0))
      true).terminated = true :=
  (gemini_cleanup_guaranteed ["a\n"] (GemEnd.abandoned 0) true).1

/-- Claim C7: the process adapter emits `{response: line}` for each
non-empty stdout line with its trailing newline stripped and skips blank
lines; a process writing the lines "1", "", "2" yields exactly
`{"response":"1"}` then `{"response":"2"}`. -/
theorem gemini_line_filtering :
    (∀ ls : List String,
        geminiEmit ls =
          ((ls.map stripNl).filter (fun s => !s.isEmpty)).map
            (fun s => OutRec.response (JVal.jstr s))) ∧
    geminiEmit ["1\n", "\n", "2\n"] =
      [OutRec.response (JVal.jstr "1"), OutRec.response (JVal.jstr "2")] := by
  constructor
  · intro ls
    induction ls with
    | nil => rfl
    | cons l rest ih =>
        simp only [geminiEmit, List.map_cons, List.filter_cons]
        cases h : (stripNl l).isEmpty with
        | true => simp [h, ih]
        | false => simp [h, ih]
  · decide

/-- Spot check for `gemini_line_filtering` at a single line. -/
theorem gemini_line_filtering_spot :
    geminiEmit ["a\n"] =
      (((["a\n"]).map stripNl).filter (fun s => !s.isEmpty)).map
        (fun s => OutRec.response (JVal.jstr s)) :=
  gemini_line_filtering.1 ["a\n"]

/-- Claim C8: a line from the primary backend that fails to parse as JSON is
silently skipped — the stream with the malformed line produces exactly the
records of the stream without it, so it contributes no record, terminates
nothing, and surfaces no error. -/
theorem ollama_noise_skipped :
    ∀ (pre : List OllamaLine) (s : String) (suf : List OllamaLine),
      ollamaLoop (pre ++ OllamaLine.noise s :: suf) = ollamaLoop (pre ++ suf) := by
  intro pre s suf
  induction pre with
  | nil => rfl
  | cons l rest ih =>
      cases l with
      | blank => simpa [ollamaLoop] using ih
      | noise r => simpa [ollamaLoop] using ih
      | frag j =>
          simp only [List.cons_append, ollamaLoop]
          split
          · rfl
          · exact congrArg (fun x => fragEmits j ++ x) ih

/-- Spot check for `ollama_noise_skipped`: a malformed line between two
valid fragments changes nothing. -/
theorem ollama_noise_skipped_spot :
    ollamaLoop [OllamaLine.frag (genFrag "a" false), OllamaLine.noise "garbage",
        OllamaLine.frag (genFrag "b" true)] =
      ollamaLoop [OllamaLine.frag (genFrag "a" false),
        OllamaLine.frag (genFrag "b" true)] :=
  ollama_noise_skipped [OllamaLine.frag (genFrag "a" false)] "garbage"
    [OllamaLine.frag (genFrag "b" true)]

/-- Claim C9: a request whose stripped `message` is empty and whose history
is empty is rejected with a 400 validation error before any stream is
started or any backend adapter invoked — the handler returns an error
response, producing zero output records. -/
theorem empty_request_rejected :
    ∀ (rawMsg : Option String) (provider : Option String) (w : BackendWorld),
      stripMsg rawMsg = "" →
      chatStream rawMsg [] provider w =
        Except.error (400, "message is required") := by
  intro rawMsg provider w h
  simp [chatStream, h, String.isEmpty_iff]

/-- Spot check for `empty_request_rejected` at a whitespace-only message. -/
theorem empty_request_rejected_spot :
    chatStream (some "   ") [] none
        ⟨HttpOutcome.ok [], GemExec.launchFail "x", false⟩ =
      Except.error (400, "message is required") :=
  empty_request_rejected (some "   ") none
    ⟨HttpOutcome.ok [], GemExec.launchFail "x", false⟩ (by decide)

/-- Claim C10: the subprocess invocation of the process backend embeds only the
(stripped) `message`, never the history — two accepted streaming requests
routed to the secondary backend that differ only in their history produce
the same argv and the same records — and an empty `message` with non-empty
history invokes the subprocess with an empty `-p` argument. -/
theorem gemini_history_noninterference :
    (∀ (cmd model : String) (rawMsg : Option String) (h1 h2 : List Turn),
        geminiInvocation cmd model rawMsg h1 =
          geminiInvocation cmd model rawMsg h2) ∧
    (∀ (rawMsg : Option String) (p : Option String) (w : BackendWorld)
        (h1 h2 : List Turn),
        selectBackend p = Backend.gemini →
        h1.isEmpty = false → h2.isEmpty = false →
        chatStream rawMsg h1 p w = chatStream rawMsg h2 p w) ∧
    (∀ (cmd model : String) (hist : List Turn),
        geminiInvocation cmd model (some "") hist =
          [cmd, "stream", "-m", model, "-p", ""]) := by
  refine ⟨fun cmd model rawMsg h1 h2 => rfl, ?_, fun cmd model hist => rfl⟩
  intro rawMsg p w h1 h2 hp hh1 hh2
  simp [chatStream, hp, hh1, hh2]

/-- Spot check for `gemini_history_noninterference`: two gemini-routed
requests with different histories stream identically. -/
theorem gemini_history_noninterference_spot :
    chatStream (some "q") [⟨"user", "a"⟩] (some "gemini")
        ⟨HttpOutcome.ok [], GemExec.launched ["ok\n"] GemEnd.natural, false⟩ =
      chatStream (some "q") [⟨"user", "b"⟩, ⟨"assistant", "c"⟩] (some "gemini")
        ⟨HttpOutcome.ok [], GemExec.launched ["ok\n"] GemEnd.natural, false⟩ :=
  gemini_history_noninterference.2.1 (some "q") (some "gemini")
    ⟨HttpOutcome.ok [], GemExec.launched ["ok\n"] GemEnd.natural, false⟩
    [⟨"user", "a"⟩] [⟨"user", "b"⟩, ⟨"assistant", "c"⟩]
    (by decide) (by decide) (by decide)

end LocalLLM
